import Mathlib

/-!
Shallow embedding of the `aspyrobot` operation-dispatch core
(`src/aspyrobot/server.py` and `src/aspyrobot/client.py`), together with
theorems settling the behavioural claims about it.

Conventions of the embedding:
* Python `None` / optional JSON fields become `Option _`.
* Handler bodies are arbitrary code; their observable behaviour through the
  decorator boundary is a `HandlerRun`: the updates they enqueue via
  `operation_update` plus how they finish (`HandlerOutcome`: normal return,
  `RobotError`, or any other `Exception` — the two catch clauses of
  `_safe_run_operation`).
* `threading.Lock` is modelled by its documented Python semantics:
  `acquire(False)` returns a success flag without blocking, and `release()`
  on an unlocked lock raises `RuntimeError`.
-/

namespace Aspyrobot

/-- A broadcast operation event, as enqueued by `RobotServer.operation_update`
(`server.py` lines 239-255): the dict
`{type: "operation", stage, handle, message, error}`; the constant
`type` field is omitted. -/
structure OperationUpdate where
  stage : String
  handle : Nat
  message : Option String
  error : Option String
deriving DecidableEq, Repr

/-- `RobotServer.operation_update(handle, message, stage, error)`: builds the
event that is put on the publish queue.  Python defaults are
`message=''`, `stage='update'`, `error=None`; callers in this file always
pass the arguments explicitly. -/
def operation_update (handle : Nat) (message : Option String)
    (stage : String) (error : Option String) : OperationUpdate :=
  { stage := stage, handle := handle, message := message, error := error }

/-- How a wrapped handler finishes: a normal return (whose value may be
`None`), a raised `RobotError`, or any other raised `Exception`.  These are
exactly the cases distinguished by `_safe_run_operation`
(`server.py` lines 64-78). -/
inductive HandlerOutcome where
  | ok (data : Option String)
  | robotError (msg : String)
  | exc (msg : String)
deriving DecidableEq, Repr

/-- What `server.logger.error` received: either a plain message
(`RobotError` branch) or a full traceback containing the exception message
(generic `Exception` branch, `traceback.format_exc()`). -/
inductive LogEntry where
  | errorMsg (msg : String)
  | errorTraceback (msg : String)
deriving DecidableEq, Repr

/-- The `(data, error)` pair computed by `_safe_run_operation`
(`server.py` lines 64-78): on success `(result, None)`; on a caught
exception `data` keeps its initialisation `None` and `error = str(e)`. -/
def safe_run_operation (out : HandlerOutcome) : Option String × Option String :=
  match out with
  | .ok data => (data, none)
  | .robotError msg => (none, some msg)
  | .exc msg => (none, some msg)

/-- The log entries produced by `_safe_run_operation`: `RobotError` logs its
message, any other exception logs the traceback. -/
def safe_run_operation_log (out : HandlerOutcome) : List LogEntry :=
  match out with
  | .ok _ => []
  | .robotError msg => [LogEntry.errorMsg msg]
  | .exc msg => [LogEntry.errorTraceback msg]

/-- Python `threading.Lock.acquire(blocking=False)` on a lock whose held
state is `held`: returns `(success, new state)`; never blocks. -/
def lockAcquireNonBlocking (held : Bool) : Bool × Bool :=
  if held then (false, held) else (true, true)

/-- Python `threading.Lock.release()`: frees a held lock; raising
`RuntimeError` on an unlocked lock is modelled by the `.error` result. -/
def lockRelease (held : Bool) : Except String Bool :=
  if held then .ok false else .error "release unlocked lock"

/-- A handler's observable behaviour during one invocation: the updates it
enqueued for its handle (via `operation_update`) before finishing, and how
it finished. -/
structure HandlerRun where
  emits : List OperationUpdate
  outcome : HandlerOutcome
deriving DecidableEq, Repr

/-- Observable result of running a decorated foreground/background wrapper
on its thread: events enqueued to the publish queue in order, logger calls,
and whether the wrapped handler body actually ran. -/
structure OpRunResult where
  events : List OperationUpdate
  log : List LogEntry
  ranHandler : Bool
deriving DecidableEq, Repr

/-- The `foreground_operation` wrapper (`server.py` lines 16-33) run with
device flag `fgDone` (truthiness of `robot.foreground_done.value`) and
foreground-lock state `gateHeld`.  Emits the start event, then — short
circuit, as in the Python `and` — only if `fgDone` attempts the
non-blocking acquire; on success runs the handler via
`_safe_run_operation`, releases the lock, and emits the end event carrying
the handler's data/error; otherwise emits the end event with error
`'busy'`.  Returns the run result and the lock state afterward; a
`RuntimeError` escaping from `release` would surface as `.error`. -/
def foreground_operation (fgDone gateHeld : Bool) (run : HandlerRun)
    (handle : Nat) : Except String (OpRunResult × Bool) :=
  let startEvt := operation_update handle (some "") "start" none
  if fgDone then
    match lockAcquireNonBlocking gateHeld with
    | (true, heldAfter) =>
      match safe_run_operation run.outcome with
      | (data, error) =>
        match lockRelease heldAfter with
        | .ok heldFinal =>
          .ok ({ events := startEvt :: (run.emits ++
                   [operation_update handle data "end" error]),
                 log := safe_run_operation_log run.outcome,
                 ranHandler := true }, heldFinal)
        | .error e => .error e
    | (false, heldAfter) =>
      .ok ({ events := [startEvt, operation_update handle none "end" (some "busy")],
             log := [], ranHandler := false }, heldAfter)
  else
    .ok ({ events := [startEvt, operation_update handle none "end" (some "busy")],
           log := [], ranHandler := false }, gateHeld)

/-- The `background_operation` wrapper (`server.py` lines 36-48): start
event, run the handler via `_safe_run_operation`, end event; the foreground
lock is never consulted. -/
def background_operation (run : HandlerRun) (handle : Nat) : OpRunResult :=
  let startEvt := operation_update handle (some "") "start" none
  match safe_run_operation run.outcome with
  | (data, error) =>
    { events := startEvt :: (run.emits ++
        [operation_update handle data "end" error]),
      log := safe_run_operation_log run.outcome,
      ranHandler := true }

/-- A reply dict sent back on the request/reply channel.  Invalid-request
replies carry only `error`; query replies carry `error` and `data`; async
submission replies carry `error` and `handle`.  An absent key and a key
holding `None` are both `none`. -/
structure Reply where
  error : Option String
  data : Option String
  handle : Option Nat
deriving DecidableEq, Repr

/-- The `query_operation` wrapper (`server.py` lines 51-61): run the handler
via `_safe_run_operation` and return `{error, data}`. -/
def query_operation (out : HandlerOutcome) : Reply :=
  match safe_run_operation out with
  | (data, error) => { error := error, data := data, handle := none }

/-- The dispatch-relevant content of a decorated operation attribute: its
`_operation_type` string (set by the decorators to `'foreground'`,
`'background'` or `'query'`), an abstraction of its `inspect` signature
(keyword parameters it accepts, those it requires, and whether a leading
positional handle argument binds), and the behaviour its handler would
exhibit if invoked now. -/
structure OpDescr where
  kind : String
  accepted : List String
  required : List String
  acceptsHandle : Bool
  run : HandlerRun
deriving DecidableEq, Repr

/-- A server attribute as seen by `_process_request`: either a declared
operation (has `_operation_type`) or a plain attribute without one. -/
inductive AttrVal where
  | op (d : OpDescr)
  | nonOp
deriving DecidableEq, Repr

/-- A client request message: `message.get('operation')` (absent key gives
`None`) and the names of the supplied keyword parameters
(`message.get('parameters', {})`; values do not affect binding). -/
structure Request where
  operation : Option String
  parameters : List String
deriving DecidableEq, Repr

/-- The mutable server state touched by dispatch: the attribute table
consulted by `getattr`, the device flag `robot.foreground_done.value`
(truthiness), the foreground-lock state, and the `_operation_handle`
counter. -/
structure ServerState where
  registry : List (String × AttrVal)
  fgDone : Bool
  gateHeld : Bool
  handleCounter : Nat
deriving DecidableEq, Repr

/-- `inspect.signature(target).bind(...)` (`server.py` lines 189-198):
query operations bind `(**parameters)`, the others bind
`(None, **parameters)` and so additionally need the handle slot.  Binding
succeeds when every supplied keyword is accepted and every required
keyword is supplied. -/
def signatureBinds (d : OpDescr) (supplied : List String) : Bool :=
  (if d.kind = "query" then true else d.acceptsHandle)
  && supplied.all (fun p => d.accepted.contains p)
  && d.required.all (fun p => supplied.contains p)

/-- `RobotServer._next_handle` (`server.py` lines 211-215): increment the
counter under `_handle_lock` and return it. -/
def next_handle (s : ServerState) : Nat × ServerState :=
  (s.handleCounter + 1, { s with handleCounter := s.handleCounter + 1 })

/-- `RobotServer._process_request` (`server.py` lines 174-209).  Returns the
reply dict, the server state after the synchronous part, and — for async
kinds — the operation descriptor and handle handed to the freshly spawned
thread.  A missing `operation` key (`getattr(self, None)` raising
`TypeError`) and an unknown name (`AttributeError`) both yield the
`'operation does not exist'` reply. -/
def process_request (s : ServerState) (req : Request) :
    Reply × ServerState × Option (OpDescr × Nat) :=
  match req.operation with
  | none =>
    ({ error := some "invalid request: operation does not exist",
       data := none, handle := none }, s, none)
  | some name =>
    match List.lookup name s.registry with
    | none =>
      ({ error := some "invalid request: operation does not exist",
         data := none, handle := none }, s, none)
    | some AttrVal.nonOp =>
      ({ error := some ("invalid request: \x27" ++ name ++ "\x27 not an operation"),
         data := none, handle := none }, s, none)
    | some (AttrVal.op d) =>
      if signatureBinds d req.parameters then
        if d.kind = "query" then
          (query_operation d.run.outcome, s, none)
        else if d.kind = "foreground" ∨ d.kind = "background" then
          match next_handle s with
          | (handle, s1) =>
            ({ error := none, data := none, handle := some handle },
             s1, some (d, handle))
        else
          ({ error := some "invalid request: unknown operation type",
             data := none, handle := none }, s, none)
      else
        ({ error := some "invalid request: incorrect arguments",
           data := none, handle := none }, s, none)

/-- One request processed end to end: the synchronous dispatch followed by
the spawned operation thread (if any) running to completion.  Returns the
submission reply, the state afterwards, and the spawned run's observable
result (empty for queries and rejected requests). -/
def dispatch_and_run (s : ServerState) (req : Request) :
    Except String (Reply × ServerState × OpRunResult) :=
  match process_request s req with
  | (reply, s1, none) =>
    .ok (reply, s1, { events := [], log := [], ranHandler := false })
  | (reply, s1, some (d, handle)) =>
    if d.kind = "foreground" then
      match foreground_operation s1.fgDone s1.gateHeld d.run handle with
      | .ok (r, gate) => .ok (reply, { s1 with gateHeld := gate }, r)
      | .error e => .error e
    else
      .ok (reply, s1, background_operation d.run handle)

/-- The synchronous replies to a sequence of requests handled one after the
other by the request thread. -/
def run_requests (s : ServerState) (reqs : List Request) :
    List Reply × ServerState :=
  match reqs with
  | [] => ([], s)
  | req :: rest =>
    match process_request s req with
    | (reply, s1, _) =>
      match run_requests s1 rest with
      | (replies, s2) => (reply :: replies, s2)

/-- A request that names a registered foreground/background operation with
parameters that bind: exactly the requests whose submission allocates a
handle and spawns a thread. -/
def isAsyncSubmission (registry : List (String × AttrVal)) (req : Request) : Bool :=
  match req.operation with
  | none => false
  | some name =>
    match List.lookup name registry with
    | some (AttrVal.op d) =>
      if d.kind = "foreground" ∨ d.kind = "background" then
        signatureBinds d req.parameters
      else false
    | _ => false

/-- Modelled from the spec: an exception raised to the caller of the client
API.  The module `aspyrobot/exceptions.py` defining `RobotError` is not in
the sources; per the spec's error taxonomy it is the recognized domain
error (the spec's `DeviceError`), an exception class carrying a message.
`valueError` is Python's builtin `ValueError` (the spec's
`InvalidOperation`-style rejection); `keyError` models `reply['handle']`
on a reply without that key. -/
inductive ClientExc where
  | robotError (msg : String)
  | valueError (msg : String)
  | keyError
deriving DecidableEq, Repr

/-- `RobotClient.run_query` (`client.py` lines 120-141) applied to the reply
received for the request: a non-`None` `error` raises a `RobotError` carrying the reply's error string, otherwise the reply's data is returned. -/
def run_query (reply : Reply) : Except ClientExc (Option String) :=
  match reply.error with
  | some e => .error (.robotError e)
  | none => .ok reply.data

/-- `RobotClient.run_operation` (`client.py` lines 143-166) applied to the
reply received for the submission: a non-`None` `error` raises
a `ValueError` carrying the reply's error string; otherwise, when a
callback was supplied it is registered in `_operation_callbacks` under the
reply's handle, and the reply is returned with the new callback table. -/
def run_operation (callbacks : List (Nat × String)) (callback : Option String)
    (reply : Reply) : Except ClientExc (Reply × List (Nat × String)) :=
  match reply.error with
  | some e => .error (.valueError e)
  | none =>
    match callback with
    | none => .ok (reply, callbacks)
    | some c =>
      match reply.handle with
      | some h => .ok (reply, (h, c) :: callbacks)
      | none => .error .keyError

/-- The handles `1, 2, ..., n` counted up from `c`:
`countFrom c n = [c+1, c+2, ..., c+n]`. -/
def countFrom (c n : Nat) : List Nat :=
  match n with
  | 0 => []
  | n + 1 => (c + 1) :: countFrom (c + 1) n

/-- The per-handle lifecycle shape required of a broadcast event sequence:
one leading `start`, then zero or more `update` events, then one final
`end`, all carrying the given handle — hence nothing after the `end`. -/
def WellFormedLifecycle (handle : Nat) (evts : List OperationUpdate) : Prop :=
  ∃ first mids last,
    evts = first :: (mids ++ [last])
    ∧ first.stage = "start"
    ∧ last.stage = "end"
    ∧ (∀ e ∈ mids, e.stage = "update")
    ∧ (∀ e ∈ evts, e.handle = handle)

/-! Concrete fixtures used to instantiate the theorems below. -/

/-- A registered foreground operation in the style of the `calibrate`
operation of the tests: accepts an optional `target` keyword and returns
`'done'`. -/
def calibrateOp : OpDescr :=
  { kind := "foreground", accepted := ["target"], required := [],
    acceptsHandle := true, run := { emits := [], outcome := .ok (some "done") } }

/-- `RobotServer.clear`, a background operation requiring a `level`
keyword. -/
def clearOp : OpDescr :=
  { kind := "background", accepted := ["level"], required := ["level"],
    acceptsHandle := true, run := { emits := [], outcome := .ok none } }

/-- `RobotServer.refresh`, a query operation returning the robot
snapshot. -/
def refreshOp : OpDescr :=
  { kind := "query", accepted := [], required := [],
    acceptsHandle := false, run := { emits := [], outcome := .ok (some "snapshot") } }

/-- The attribute table of the example server. -/
def exampleRegistry : List (String × AttrVal) :=
  [("calibrate", AttrVal.op calibrateOp), ("clear", AttrVal.op clearOp),
   ("refresh", AttrVal.op refreshOp)]

/-- A freshly constructed example server: foreground available, lock free,
handle counter `0` as set by `RobotServer.__init__`. -/
def freshState : ServerState :=
  { registry := exampleRegistry, fgDone := true, gateHeld := false,
    handleCounter := 0 }

/-- The example server with the foreground lock already held. -/
def heldState : ServerState := { freshState with gateHeld := true }

/-- The example `calibrate` request of the tests. -/
def calibrateReq : Request :=
  { operation := some "calibrate", parameters := ["target"] }

/-- A handler behaviour that emits one progress update for handle `5` and
then raises `RobotError`. -/
def updateRun : HandlerRun :=
  { emits := [operation_update 5 (some "progress") "update" none],
    outcome := .robotError "Bad bad happened" }

/-! Theorems settling the claims. -/

/-- C10: the foreground wrapper runs the handler body exactly when the
device's foreground_done flag is truthy and the non-blocking lock
acquisition succeeds, the flag being checked first (short-circuit): when
the flag is falsy the operation ends with error `busy` and the lock —
even when free — is left untouched by that operation. -/
theorem foreground_guard (fg gate : Bool) (run : HandlerRun) (k : Nat) :
    (∀ r gate2, foreground_operation fg gate run k = .ok (r, gate2) →
      (r.ranHandler = true ↔ fg = true ∧ gate = false))
    ∧ (fg = false →
        foreground_operation fg gate run k =
          .ok ({ events := [operation_update k (some "") "start" none,
                            operation_update k none "end" (some "busy")],
                 log := [], ranHandler := false }, gate)) := by
  constructor
  · intro r gate2 h
    cases fg <;> cases gate <;>
      simp_all [foreground_operation, lockAcquireNonBlocking, lockRelease] <;>
      (obtain ⟨h1, h2⟩ := h; subst h1; rfl)
  · intro hfg
    subst hfg
    rfl

/-- C10 witness: with the flag down and the lock free, the wrapper reports
`busy`, does not run the handler, and leaves the lock free. -/
theorem foreground_guard_witness :
    (({ events := [operation_update 5 (some "") "start" none,
                   operation_update 5 none "end" (some "busy")],
        log := [], ranHandler := false } : OpRunResult).ranHandler = true
      ↔ false = true ∧ false = false)
    ∧ foreground_operation false false updateRun 5 =
        .ok ({ events := [operation_update 5 (some "") "start" none,
                          operation_update 5 none "end" (some "busy")],
               log := [], ranHandler := false }, false) :=
  ⟨(foreground_guard false false updateRun 5).1
      { events := [operation_update 5 (some "") "start" none,
                   operation_update 5 none "end" (some "busy")],
        log := [], ranHandler := false } false rfl,
   (foreground_guard false false updateRun 5).2 rfl⟩

/-- C2: a foreground operation dispatched with the flag up and the lock
free acquires the lock and runs the handler, and afterward the lock is
free again whatever the handler outcome (normal return, `RobotError`, or
any other exception) — so a subsequently dispatched foreground operation
acquires the lock and runs as well. -/
theorem gate_released_after_foreground (run run2 : HandlerRun) (k k2 : Nat) :
    ∃ r, foreground_operation true false run k = .ok (r, false)
      ∧ r.ranHandler = true
      ∧ ∃ r2, foreground_operation true false run2 k2 = .ok (r2, false)
        ∧ r2.ranHandler = true :=
  ⟨_, rfl, rfl, _, rfl, rfl⟩

/-- C8 counterexample: releasing the lock in the Free state is not an
idempotent no-op — it raises `RuntimeError` and does not return the lock
to the caller in the Free state. -/
theorem release_free_raises_counterexample :
    lockRelease false = .error "release unlocked lock"
    ∧ lockRelease false ≠ .ok false := by
  constructor
  · rfl
  · simp [lockRelease]

/-- C8 amended: releasing a Held lock frees it and succeeds, but releasing
a Free lock raises `RuntimeError` instead of being a no-op; the foreground
wrapper only releases immediately after a successful acquisition on its
own thread, so its release never fails and the wrapper always completes. -/
theorem release_discipline (run : HandlerRun) (k : Nat) :
    lockRelease true = .ok false
    ∧ lockRelease false = .error "release unlocked lock"
    ∧ ∀ fg gate, ∃ r gate2, foreground_operation fg gate run k = .ok (r, gate2) := by
  refine ⟨rfl, rfl, ?_⟩
  intro fg gate
  cases fg <;> cases gate <;> exact ⟨_, _, rfl⟩

/-- C7 counterexample: the error surfaced for an unexpected handler failure
is exactly the exception's own message — it varies with the exception
content, so it is not a generic error string. -/
theorem unexpected_error_verbatim_counterexample :
    (safe_run_operation (.exc "boom")).2 = some "boom"
    ∧ (safe_run_operation (.exc "boom")).2 ≠ (safe_run_operation (.exc "zap")).2 := by
  constructor
  · rfl
  · simp [safe_run_operation]

/-- C7 amended: an unexpected (non-`RobotError`) handler failure is caught
at the wrapper boundary, the full traceback is logged, the failure is
surfaced to the caller as the exception's own message `str(e)` (not a
generic string), and the wrapper still completes and emits its terminal
End event carrying that message. -/
theorem unexpected_error_handling (m : String) (emits : List OperationUpdate)
    (k : Nat) :
    safe_run_operation (.exc m) = (none, some m)
    ∧ safe_run_operation_log (.exc m) = [LogEntry.errorTraceback m]
    ∧ (background_operation { emits := emits, outcome := .exc m } k).events.getLast?
        = some (operation_update k none "end" (some m)) := by
  refine ⟨rfl, rfl, ?_⟩
  show (operation_update k (some "") "start" none ::
    (emits ++ [operation_update k none "end" (some m)])).getLast? = _
  rw [← List.cons_append, List.getLast?_concat]

/-- Helper: an event list of the shape produced by the async wrappers —
a start event, then update events for the handle, then an end event —
satisfies `WellFormedLifecycle`. -/
theorem wellFormed_of_shape (k : Nat) (mids : List OperationUpdate)
    (m0 m1 : Option String) (er : Option String)
    (hm : ∀ e ∈ mids, e.stage = "update" ∧ e.handle = k) :
    WellFormedLifecycle k
      (operation_update k m0 "start" none ::
        (mids ++ [operation_update k m1 "end" er])) := by
  refine ⟨_, mids, _, rfl, rfl, rfl, fun e he => (hm e he).1, ?_⟩
  intro e he
  rcases List.mem_cons.mp he with h0 | h1
  · rw [h0]; rfl
  · rcases List.mem_append.mp h1 with h2 | h3
    · exact (hm e h2).2
    · rw [List.mem_singleton.mp h3]; rfl

/-- C4: for any handler that only emits plain update events for its own
handle, each async wrapper emits exactly one leading Start, then the
handler's updates, then exactly one terminal End with no event after it —
for the foreground kind under every flag/lock state (including the busy
rejection) and for the background kind, on success and on failure. -/
theorem lifecycle_shape (fg gate : Bool) (run : HandlerRun) (k : Nat)
    (hem : ∀ e ∈ run.emits, e.stage = "update" ∧ e.handle = k) :
    (∃ r gate2, foreground_operation fg gate run k = .ok (r, gate2)
       ∧ WellFormedLifecycle k r.events)
    ∧ WellFormedLifecycle k (background_operation run k).events := by
  constructor
  · cases fg with
    | false =>
      exact ⟨_, _, rfl, wellFormed_of_shape k [] (some "") none (some "busy")
        (by intro e he; cases he)⟩
    | true =>
      cases gate with
      | false =>
        exact ⟨_, _, rfl, wellFormed_of_shape k run.emits (some "")
          (safe_run_operation run.outcome).1 (safe_run_operation run.outcome).2 hem⟩
      | true =>
        exact ⟨_, _, rfl, wellFormed_of_shape k [] (some "") none (some "busy")
          (by intro e he; cases he)⟩
  · exact wellFormed_of_shape k run.emits (some "")
      (safe_run_operation run.outcome).1 (safe_run_operation run.outcome).2 hem

/-- C4 witness: the lifecycle shape at a concrete handler that emits one
progress update for handle `5` and then raises `RobotError`. -/
theorem lifecycle_shape_witness :
    (∃ r gate2, foreground_operation true false updateRun 5 = .ok (r, gate2)
       ∧ WellFormedLifecycle 5 r.events)
    ∧ WellFormedLifecycle 5 (background_operation updateRun 5).events :=
  lifecycle_shape true false updateRun 5 (by decide)

/-- C5 counterexample: a query whose handler returns `None` yields the
reply `{error: null, data: null}` — `data` is null while `error` is null,
so `data` is not null exactly-when `error` is non-null. -/
theorem query_null_data_counterexample :
    query_operation (.ok none) = { error := none, data := none, handle := none }
    ∧ ¬ ((query_operation (.ok none)).data = none
          ↔ (query_operation (.ok none)).error ≠ none) := by
  constructor
  · rfl
  · decide

/-- C5 amended: a dispatched query runs its handler synchronously on the
request thread (no thread spawned, no server-state change), every handler
failure is caught, the reply is `{error, data}`, and whenever `error` is
non-null `data` is null; `data` may also be null on success, when the
handler returns `None`. -/
theorem query_dispatch_shape (s : ServerState) (req : Request) (name : String)
    (d : OpDescr)
    (hop : req.operation = some name)
    (hlook : List.lookup name s.registry = some (AttrVal.op d))
    (hkind : d.kind = "query")
    (hbind : signatureBinds d req.parameters = true) :
    process_request s req = (query_operation d.run.outcome, s, none)
    ∧ ∀ out : HandlerOutcome,
        (query_operation out).error ≠ none → (query_operation out).data = none := by
  constructor
  · simp [process_request, hop, hlook, hkind, hbind]
  · intro out
    cases out <;> simp [query_operation, safe_run_operation]

/-- C5 witness: the `refresh` query against the example server is answered
synchronously with its snapshot and without spawning anything. -/
theorem query_dispatch_shape_witness :
    process_request freshState { operation := some "refresh", parameters := [] }
      = (query_operation (HandlerOutcome.ok (some "snapshot")), freshState, none) :=
  (query_dispatch_shape freshState
    { operation := some "refresh", parameters := [] } "refresh" refreshOp
    rfl rfl rfl rfl).1

/-- C9: a reply carrying a non-null error raises `RobotError` (the domain
error) out of `run_query` but `ValueError` out of `run_operation` — two
distinct exception types distinguishing the channel, each carrying the
reply's error message; with a null error `run_query` raises nothing and
returns the reply's data, and `run_operation` raises nothing and
registers the supplied callback (if any) under the returned handle. -/
theorem client_error_translation (reply : Reply) (msg : String)
    (cbs : List (Nat × String)) :
    (reply.error = some msg →
      run_query reply = .error (.robotError msg)
      ∧ (∀ cb, run_operation cbs cb reply = .error (.valueError msg))
      ∧ ClientExc.robotError msg ≠ ClientExc.valueError msg)
    ∧ (reply.error = none →
      run_query reply = .ok reply.data
      ∧ run_operation cbs none reply = .ok (reply, cbs)
      ∧ ∀ c h, reply.handle = some h →
          run_operation cbs (some c) reply = .ok (reply, (h, c) :: cbs)) := by
  constructor
  · intro he
    refine ⟨?_, ?_, by simp⟩
    · simp [run_query, he]
    · intro cb
      simp [run_operation, he]
  · intro he
    refine ⟨by simp [run_query, he], by simp [run_operation, he], ?_⟩
    intro c h hh
    simp [run_operation, he, hh]

/-- C9 witness: a concrete erroring query reply raises `RobotError`, and a
concrete successful submission reply registers the callback under the
returned handle `7`. -/
theorem client_error_translation_witness :
    run_query { error := some "oops", data := none, handle := none }
      = .error (.robotError "oops")
    ∧ run_operation [] (some "cb") { error := none, data := none, handle := some 7 }
      = .ok ({ error := none, data := none, handle := some 7 }, [(7, "cb")]) :=
  ⟨((client_error_translation
      { error := some "oops", data := none, handle := none } "oops" []).1 rfl).1,
   (((client_error_translation
      { error := none, data := none, handle := some 7 } "oops" []).2 rfl).2.2 "cb" 7 rfl)⟩

/-- C6 counterexample: for an unknown operation name the dispatcher's reply
error is `invalid request: operation does not exist`, not the bare string
`operation does not exist` (and likewise `invalid request: incorrect
arguments`, not `incorrect arguments`). -/
theorem dispatch_error_strings_counterexample :
    (process_request
        { registry := [], fgDone := true, gateHeld := false, handleCounter := 0 }
        { operation := some "nope", parameters := [] }).1.error
      = some "invalid request: operation does not exist"
    ∧ (process_request
        { registry := [], fgDone := true, gateHeld := false, handleCounter := 0 }
        { operation := some "nope", parameters := [] }).1.error
      ≠ some "operation does not exist"
    ∧ (process_request freshState
        { operation := some "calibrate", parameters := ["wrong_name"] }).1.error
      = some "invalid request: incorrect arguments"
    ∧ (process_request freshState
        { operation := some "calibrate", parameters := ["wrong_name"] }).1.error
      ≠ some "incorrect arguments" := by
  refine ⟨rfl, by decide, rfl, by decide⟩

/-- C6 amended: dispatch validates synchronously and totally — an unknown
name (or a missing operation key) yields the reply error `invalid request:
operation does not exist`, a name bound to an attribute that is not a
declared operation yields `invalid request: <name> not an operation`, and
parameters that do not bind to the operation's signature yield `invalid
request: incorrect arguments`; in each case the server state (in
particular the handle counter) is unchanged and no thread is spawned, so
the checks complete before any handle is allocated or async work
started. -/
theorem dispatch_validation (s : ServerState) (req : Request) :
    (req.operation = none →
      process_request s req =
        ({ error := some "invalid request: operation does not exist",
           data := none, handle := none }, s, none))
    ∧ (∀ name, req.operation = some name →
        List.lookup name s.registry = none →
        process_request s req =
          ({ error := some "invalid request: operation does not exist",
             data := none, handle := none }, s, none))
    ∧ (∀ name, req.operation = some name →
        List.lookup name s.registry = some AttrVal.nonOp →
        process_request s req =
          ({ error := some ("invalid request: \x27" ++ name ++ "\x27 not an operation"),
             data := none, handle := none }, s, none))
    ∧ (∀ name d, req.operation = some name →
        List.lookup name s.registry = some (AttrVal.op d) →
        signatureBinds d req.parameters = false →
        process_request s req =
          ({ error := some "invalid request: incorrect arguments",
             data := none, handle := none }, s, none)) := by
  refine ⟨?_, ?_, ?_, ?_⟩
  · intro hop
    simp [process_request, hop]
  · intro name hop hlook
    simp [process_request, hop, hlook]
  · intro name hop hlook
    simp [process_request, hop, hlook]
  · intro name d hop hlook hbind
    simp [process_request, hop, hlook, hbind]

/-- C6 witness: a request for the unregistered name `nope` against the
example server is rejected with the unknown-operation error and the state
is unchanged. -/
theorem dispatch_validation_witness :
    process_request freshState { operation := some "nope", parameters := [] }
      = ({ error := some "invalid request: operation does not exist",
           data := none, handle := none }, freshState, none) :=
  (dispatch_validation freshState
    { operation := some "nope", parameters := [] }).2.1 "nope" rfl rfl

/-- C1: dispatching a foreground operation while the foreground lock is
held still succeeds at submission — the synchronous reply carries a null
error and the fresh handle — while the spawned wrapper emits the Start
event (before the lock check) and then the terminal End with error `busy`;
the handler does not run and the lock is still held afterward. -/
theorem foreground_busy_dispatch (s : ServerState) (req : Request)
    (name : String) (d : OpDescr)
    (hop : req.operation = some name)
    (hlook : List.lookup name s.registry = some (AttrVal.op d))
    (hkind : d.kind = "foreground")
    (hbind : signatureBinds d req.parameters = true)
    (hgate : s.gateHeld = true) :
    ∃ s2, dispatch_and_run s req =
      .ok ({ error := none, data := none, handle := some (s.handleCounter + 1) },
           s2,
           { events := [operation_update (s.handleCounter + 1) (some "") "start" none,
                        operation_update (s.handleCounter + 1) none "end" (some "busy")],
             log := [], ranHandler := false })
      ∧ s2.gateHeld = true := by
  refine ⟨{ s with handleCounter := s.handleCounter + 1 }, ?_, hgate⟩
  have hq : ¬ d.kind = "query" := by simp [hkind]
  have hpr : process_request s req =
      ({ error := none, data := none, handle := some (s.handleCounter + 1) },
       { s with handleCounter := s.handleCounter + 1 },
       some (d, s.handleCounter + 1)) := by
    simp [process_request, hop, hlook, hq, hkind, hbind, next_handle]
  cases hfg : s.fgDone with
  | false =>
    simp [dispatch_and_run, hpr, hkind, foreground_operation, hfg, hgate]
  | true =>
    simp [dispatch_and_run, hpr, hkind, foreground_operation, hfg, hgate,
      lockAcquireNonBlocking]

/-- C1 witness: submitting `calibrate` to the example server with the lock
held returns the successful reply with handle `1` while the operation
itself is rejected with `busy` and the lock stays held. -/
theorem foreground_busy_dispatch_witness :
    ∃ s2, dispatch_and_run heldState calibrateReq =
      .ok ({ error := none, data := none, handle := some 1 },
           s2,
           { events := [operation_update 1 (some "") "start" none,
                        operation_update 1 none "end" (some "busy")],
             log := [], ranHandler := false })
      ∧ s2.gateHeld = true :=
  foreground_busy_dispatch heldState calibrateReq "calibrate" calibrateOp
    rfl rfl rfl rfl rfl

/-- Helper: a valid async submission is answered with `{error: null,
handle: counter+1}` and increments the handle counter by one, leaving the
rest of the server state unchanged. -/
theorem process_request_async (s : ServerState) (req : Request)
    (h : isAsyncSubmission s.registry req = true) :
    ∃ d, process_request s req =
      ({ error := none, data := none, handle := some (s.handleCounter + 1) },
       { s with handleCounter := s.handleCounter + 1 },
       some (d, s.handleCounter + 1)) := by
  cases hop : req.operation with
  | none => simp [isAsyncSubmission, hop] at h
  | some name =>
    cases hlook : List.lookup name s.registry with
    | none => simp [isAsyncSubmission, hop, hlook] at h
    | some av =>
      cases av with
      | nonOp => simp [isAsyncSubmission, hop, hlook] at h
      | op d =>
        simp only [isAsyncSubmission, hop, hlook] at h
        by_cases hk : d.kind = "foreground" ∨ d.kind = "background"
        · rw [if_pos hk] at h
          have hq : ¬ d.kind = "query" := by
            rcases hk with h1 | h1 <;> simp [h1]
          exact ⟨d, by simp [process_request, hop, hlook, h, hq, hk, next_handle]⟩
        · rw [if_neg hk] at h
          simp at h

/-- Helper: processing a sequence of valid async submissions yields the
reply handles counted up from the current counter value, and advances the
counter by the number of requests. -/
theorem run_requests_handles_aux : ∀ (reqs : List Request) (s : ServerState),
    (∀ req ∈ reqs, isAsyncSubmission s.registry req = true) →
    (run_requests s reqs).1.map Reply.handle
      = (countFrom s.handleCounter reqs.length).map some
    ∧ (run_requests s reqs).2.handleCounter = s.handleCounter + reqs.length := by
  intro reqs
  induction reqs with
  | nil =>
    intro s _
    simp [run_requests, countFrom]
  | cons req rest ih =>
    intro s h
    obtain ⟨d, hd⟩ := process_request_async s req (h req (by simp))
    have hrest : ∀ r ∈ rest,
        isAsyncSubmission ({ s with handleCounter := s.handleCounter + 1 }).registry r
          = true := by
      intro r hr
      exact h r (by simp [hr])
    obtain ⟨ih1, ih2⟩ := ih { s with handleCounter := s.handleCounter + 1 } hrest
    constructor
    · simp [run_requests, hd, countFrom, ih1]
    · simp [run_requests, hd, ih2]
      omega

/-- Helper: `countFrom c n` is `[c+1, ..., c+n]`. -/
theorem countFrom_eq_range : ∀ (n c : Nat),
    countFrom c n = (List.range n).map (fun i => c + i + 1) := by
  intro n
  induction n with
  | zero =>
    intro c
    simp [countFrom]
  | succ n ih =>
    intro c
    rw [countFrom, List.range_succ_eq_map, ih (c + 1)]
    simp [List.map_map, Function.comp]
    intro a _
    omega

/-- C3: starting from a fresh server (handle counter `0`), a sequence of
`N` valid async (foreground or background) submissions receives reply
handles exactly `1, 2, ..., N` in submission order — no duplicate, gap or
zero — and each call of the handle generator returns its previous value
plus one. -/
theorem handles_sequential (s : ServerState) (reqs : List Request)
    (hzero : s.handleCounter = 0)
    (hall : ∀ req ∈ reqs, isAsyncSubmission s.registry req = true) :
    (run_requests s reqs).1.map Reply.handle
      = (List.range reqs.length).map (fun i => some (i + 1))
    ∧ ∀ t : ServerState,
        next_handle t
          = (t.handleCounter + 1, { t with handleCounter := t.handleCounter + 1 }) := by
  refine ⟨?_, fun t => rfl⟩
  rw [(run_requests_handles_aux reqs s hall).1, hzero, countFrom_eq_range]
  simp [List.map_map, Function.comp]

/-- C3 witness: three async submissions (foreground, background,
foreground) against the fresh example server receive handles `1, 2, 3`. -/
theorem handles_sequential_witness :
    (run_requests freshState
        [calibrateReq, { operation := some "clear", parameters := ["level"] },
         calibrateReq]).1.map Reply.handle
      = [some 1, some 2, some 3] := by
  have h := (handles_sequential freshState
    [calibrateReq, { operation := some "clear", parameters := ["level"] },
     calibrateReq] rfl (by decide)).1
  simpa using h

end Aspyrobot
